import Mathlib

/-!
# Verification of the risk-profiler survey core

A shallow embedding, in Lean 4, of the answer-normalization, record-building,
risk-scoring, adapter and survey state-machine code of the risk-profiler
repository (`src/models/domain1.py`, `src/models/domain2.py`, `src/util.py`,
`src/agents/domain1_agent.py`), together with theorems settling the frozen
claims about that code.

Python strings are modelled as `List Char`; Python scalar values reaching the
normalization helpers are modelled by the inductive type `Value`
(`None` / `int` / `bool` / `str`).  Python floats are modelled by `ℚ` with an
explicit round-half-to-even rounding to two decimals (`round2`), matching
Python's `round(x, 2)` on the exact decimal values used by the code.
Fallible constructors (pydantic validation) are modelled with `Except`.
-/

namespace RiskProfiler

/-- Python strings, modelled as lists of characters. -/
abbrev Str := List Char

/-- Shorthand turning a Lean string literal into the `List Char` model. -/
def str (s : String) : Str := s.data

/-- The whitespace characters removed by Python `str.strip()` (ASCII range). -/
def pyIsSpace (c : Char) : Bool :=
  c = ' ' || c = '\t' || c = '\n' || c = '\x0d' || c = '\x0b' || c = '\x0c'

/-- Python `str.strip()`: drop whitespace from both ends. -/
def pyStrip (s : Str) : Str :=
  ((s.dropWhile pyIsSpace).reverse.dropWhile pyIsSpace).reverse

/-- Python `str.lower()` (ASCII case folding, enough for the code's inputs). -/
def pyLower (s : Str) : Str := s.map Char.toLower

/-- Python substring test `sub in s` (`in` on two strings). -/
def containsStr (s sub : Str) : Bool :=
  sub.isPrefixOf s ||
    match s with
    | [] => false
    | _ :: t => containsStr t sub

/-- Python scalar values that reach the normalization helpers:
`None`, `int`, `bool` and `str`. -/
inductive Value where
  | vNone : Value
  | vInt (n : ℤ) : Value
  | vBool (b : Bool) : Value
  | vStr (s : Str) : Value
  deriving DecidableEq

/-- Python `str(x)` on the modelled scalar values. -/
def pyStr : Value → Str
  | .vNone => str "None"
  | .vInt n => (toString n).data
  | .vBool true => str "True"
  | .vBool false => str "False"
  | .vStr s => s

/-- Python truthiness of the modelled scalar values. -/
def truthy : Value → Bool
  | .vNone => false
  | .vInt n => n ≠ 0
  | .vBool b => b
  | .vStr s => s ≠ []

/-- Python `x or ""`: the value itself when truthy, else the empty string. -/
def pyOrEmpty (v : Value) : Value :=
  if truthy v then v else .vStr []

/-- Value of a list of decimal digits (most significant first). -/
def digitsToNat (ds : List Char) : ℕ :=
  ds.foldl (fun acc c => acc * 10 + (c.toNat - 48)) 0

/-- Digit sequence of a Python `int()` literal: digits, where single
underscores may stand between two digits (PEP 515). -/
def pyDigitsVal (acc : ℕ) : List Char → Option ℕ
  | [] => some acc
  | '_' :: c :: rest =>
      if c.isDigit then pyDigitsVal (acc * 10 + (c.toNat - 48)) rest else none
  | ['_'] => none
  | c :: rest =>
      if c.isDigit then pyDigitsVal (acc * 10 + (c.toNat - 48)) rest else none

/-- Python `int(s)` on a string: optional surrounding whitespace, optional
sign, then digits (with legal underscores); anything else raises, modelled
as `none`. -/
def pyIntParse (s₀ : Str) : Option ℤ :=
  let s := pyStrip s₀
  match s with
  | '+' :: c :: rest =>
      if c.isDigit then (pyDigitsVal (c.toNat - 48) rest).map Int.ofNat else none
  | '-' :: c :: rest =>
      if c.isDigit then (pyDigitsVal (c.toNat - 48) rest).map (fun n => -(n : ℤ)) else none
  | c :: rest =>
      if c.isDigit then (pyDigitsVal (c.toNat - 48) rest).map Int.ofNat else none
  | [] => none

/-- `_NA_STRINGS` of `src/models/domain1.py` and `src/models/domain2.py`. -/
def NA_STRINGS : List Str :=
  [str "na", str "n/a", str "null", str "none", str "unknown", str ""]

/-- `_to_int_or_none` of `src/models/domain1.py`. -/
def toIntOrNone (x : Value) : Option ℤ :=
  match x with
  | .vNone => none
  | _ =>
      let s := pyStrip (pyStr x)
      if pyLower s ∈ NA_STRINGS then none
      else pyIntParse s

/-- The affirmative tokens of `_to_bool_or_none`. -/
def TRUE_STRINGS : List Str := [str "1", str "true", str "t", str "yes", str "y"]

/-- The negative tokens of `_to_bool_or_none`. -/
def FALSE_STRINGS : List Str := [str "0", str "false", str "f", str "no", str "n"]

/-- `_to_bool_or_none` of `src/models/domain1.py`. -/
def toBoolOrNone (x : Value) : Option Bool :=
  match x with
  | .vNone => none
  | .vBool b => some b
  | _ =>
      let v := pyLower (pyStrip (pyStr x))
      if v ∈ TRUE_STRINGS then some true
      else if v ∈ FALSE_STRINGS then some false
      else if v ∈ NA_STRINGS then none
      else none

/-- `_norm` of `src/models/domain2.py`: `str(s or "").strip().lower()`. -/
def pyNorm (v : Value) : Str := pyLower (pyStrip (pyStr (pyOrEmpty v)))

/-- Floor of a rational (numerator floor-divided by denominator). -/
def ratFloor (q : ℚ) : ℤ := Int.fdiv q.num q.den

/-- Rounding of a rational to the nearest integer, ties to even
(Python's `round` tie rule; no tie arises at the concrete values scored). -/
def roundHalfEven (q : ℚ) : ℤ :=
  let f := ratFloor q
  let r := q - (f : ℚ)
  if r < 1/2 then f
  else if 1/2 < r then f + 1
  else if f % 2 = 0 then f else f + 1

/-- Python `round(q, 2)`. -/
def round2 (q : ℚ) : ℚ := (roundHalfEven (q * 100) : ℚ) / 100

/-- `ChildAgeRange` of `src/models/domain1.py`. -/
inductive ChildAgeRange where
  | UNDER_6_MONTHS | SIX_TO_11_MONTHS | TWELVE_TO_23_MONTHS | TWO_TO_FIVE_YEARS
  deriving DecidableEq

/-- `ChildInfo` of `src/models/domain1.py` (fields only; the pydantic field
bounds are enforced by `mkChildInfo`). -/
structure ChildInfo where
  age_months : Option ℤ
  has_malnutrition_signs : Option Bool
  deriving DecidableEq

/-- Constructing a `ChildInfo`: pydantic validates `age_months` against
`ge=0, le=60` and raises `ValidationError` outside that range. -/
def mkChildInfo (age : Option ℤ) (mal : Option Bool) : Except Str ChildInfo :=
  match age with
  | some a =>
      if 0 ≤ a ∧ a ≤ 60 then .ok ⟨age, mal⟩
      else .error (str "ValidationError: age_months out of range 0..60")
  | none => .ok ⟨none, mal⟩

/-- `ChildInfo.age_range` of `src/models/domain1.py`. -/
def ChildInfo.age_range (c : ChildInfo) : Option ChildAgeRange :=
  match c.age_months with
  | none => none
  | some a =>
      if a < 6 then some .UNDER_6_MONTHS
      else if a < 12 then some .SIX_TO_11_MONTHS
      else if a < 24 then some .TWELVE_TO_23_MONTHS
      else some .TWO_TO_FIVE_YEARS

/-- The `age_scores` mapping inside `ChildInfo.vulnerability_score`. -/
def ageScore : ChildAgeRange → ℚ
  | .UNDER_6_MONTHS => 1
  | .SIX_TO_11_MONTHS => 226/100
  | .TWELVE_TO_23_MONTHS => 231/100
  | .TWO_TO_FIVE_YEARS => 3/2

/-- `ChildInfo.vulnerability_score` of `src/models/domain1.py`. -/
def ChildInfo.vulnerability_score (c : ChildInfo) : Option ℚ :=
  match c.age_range with
  | none => none
  | some ar =>
      let score := ageScore ar
      let score := if c.has_malnutrition_signs = some true then score * (114/100) else score
      some (round2 score)

/-- `CaregiverType` of `src/models/domain1.py`. -/
inductive CaregiverType where
  | BOTH_PARENTS | SINGLE_MOTHER | SINGLE_FATHER | GRANDPARENT
  | OTHER_RELATIVE | OTHER | UNKNOWN
  deriving DecidableEq

/-- `CaregiverType.from_llm_value`: exact (case-sensitive) lookup of the
stripped string among the human-readable labels, `UNKNOWN` otherwise. -/
def CaregiverType.from_llm_value (v : Value) : CaregiverType :=
  let s := pyStrip (pyStr (pyOrEmpty v))
  if s = str "Both parents" then .BOTH_PARENTS
  else if s = str "Single mother" then .SINGLE_MOTHER
  else if s = str "Single father" then .SINGLE_FATHER
  else if s = str "Grandparent" then .GRANDPARENT
  else if s = str "Other relative" then .OTHER_RELATIVE
  else if s = str "Other" then .OTHER
  else if s = str "Unknown" then .UNKNOWN
  else .UNKNOWN

/-- `Domain1Data` of `src/models/domain1.py` (fields). -/
structure Domain1Data where
  num_children_under_5 : Option ℤ
  children : List ChildInfo
  has_elderly_members : Option Bool
  has_immunocompromised_members : Option Bool
  primary_caregiver : CaregiverType
  deriving DecidableEq

/-- `Domain1Data.domain_weight` (0.10). -/
def Domain1Data.domain_weight (_ : Domain1Data) : ℚ := 1/10

/-- `Domain1Data.overall_vulnerability_score` of `src/models/domain1.py`. -/
def Domain1Data.overall_vulnerability_score (d : Domain1Data) : ℚ :=
  let scores := d.children.filterMap ChildInfo.vulnerability_score
  if scores = [] then 0
  else
    let avg := scores.sum / (scores.length : ℚ)
    let m : ℚ := 1
    let m := if d.primary_caregiver = .SINGLE_MOTHER ∨ d.primary_caregiver = .SINGLE_FATHER
             then m * (115/100) else m
    let m := if d.has_elderly_members = some true then m * (11/10) else m
    let m := if d.has_immunocompromised_members = some true then m * (11/10) else m
    round2 (avg * m)

/-- The dict returned by `Domain1Data.get_risk_summary`, as a structure with
one field per key. -/
structure RiskSummary where
  domain : Str
  domain_weight : ℚ
  total_children : Option ℤ
  high_risk_age_children : ℕ
  malnourished_children : ℕ
  high_risk_children_any : ℕ
  single_parent_household : Bool
  vulnerable_members_present : Bool
  overall_vulnerability_score : ℚ
  weighted_score : ℚ
  deriving DecidableEq

/-- `Domain1Data.get_risk_summary` of `src/models/domain1.py`. -/
def Domain1Data.get_risk_summary (d : Domain1Data) : RiskSummary :=
  let highAge := fun c : ChildInfo =>
    c.age_range = some .SIX_TO_11_MONTHS ∨ c.age_range = some .TWELVE_TO_23_MONTHS
  { domain := str "Demographics & Vulnerability Factors"
    domain_weight := d.domain_weight
    total_children := d.num_children_under_5
    high_risk_age_children := (d.children.filter (fun c => highAge c)).length
    malnourished_children :=
      (d.children.filter (fun c => c.has_malnutrition_signs = some true)).length
    high_risk_children_any :=
      (d.children.filter (fun c => highAge c ∨ c.has_malnutrition_signs = some true)).length
    single_parent_household :=
      d.primary_caregiver = .SINGLE_MOTHER ∨ d.primary_caregiver = .SINGLE_FATHER
    vulnerable_members_present :=
      d.has_elderly_members = some true ∨ d.has_immunocompromised_members = some true
    overall_vulnerability_score := d.overall_vulnerability_score
    weighted_score := round2 (d.overall_vulnerability_score * d.domain_weight) }

/-- A flat extracted field map (Python dict of raw values); a key present
with value `None` is distinct from an absent key, as in Python `dict.get`. -/
abbrev FieldMap := List (Str × Value)

/-- Python `answers.get(k)` (presence-aware lookup). -/
def fmGet (m : FieldMap) (k : Str) : Option Value :=
  (m.find? (fun p => p.1 = k)).map (fun p => p.2)

/-- Python `answers.get(k, d)`: the stored value when the key is present
(even when that value is `None`), the default otherwise. -/
def fmGetD (m : FieldMap) (k : Str) (d : Value) : Value :=
  (fmGet m k).getD d

/-- The field-name alternatives of the `child(\d+)_(age|malnutrition|...)`
pattern in `Domain1Data.from_answers`. -/
def CHILD_FIELD_ALTS : List Str :=
  [str "age", str "malnutrition", str "malnourished", str "mal", str "is_malnourished"]

/-- `re.match(r"child(\d+)_(age|malnutrition|malnourished|mal|is_malnourished)", key)`:
an unanchored-suffix prefix match, returning the child index. -/
def matchChildKey (k : Str) : Option ℕ :=
  if (str "child").isPrefixOf k then
    let r := k.drop 5
    let ds := r.takeWhile Char.isDigit
    let rest := r.dropWhile Char.isDigit
    if ds ≠ [] then
      match rest with
      | '_' :: tail =>
          if CHILD_FIELD_ALTS.any (fun a => a.isPrefixOf tail) then some (digitsToNat ds)
          else none
      | _ => none
    else none
  else none

/-- `re.match(r"age_child(\d+)", key)`, returning the child index. -/
def matchAgeChildKey (k : Str) : Option ℕ :=
  if (str "age_child").isPrefixOf k then
    let ds := (k.drop 9).takeWhile Char.isDigit
    if ds ≠ [] then some (digitsToNat ds) else none
  else none

/-- The `max_index` computation of `Domain1Data.from_answers`. -/
def maxChildIndex (answers : FieldMap) : ℕ :=
  answers.foldl (fun acc p =>
    let acc := match matchChildKey p.1 with | some i => max acc i | none => acc
    match matchAgeChildKey p.1 with | some i => max acc i | none => acc) 0

/-- Build `"child3_age"`-style keys: prefix, decimal index, suffix. -/
def natKey (pre : String) (i : ℕ) (suf : String) : Str :=
  str pre ++ (toString i).data ++ str suf

/-- The per-child age lookup of `Domain1Data.from_answers`:
`answers.get(f"child{i}_age", answers.get(f"age_child{i}"))` normalized. -/
def childAge (answers : FieldMap) (i : ℕ) : Option ℤ :=
  toIntOrNone (fmGetD answers (natKey "child" i "_age")
    (fmGetD answers (natKey "age_child" i "") .vNone))

/-- The per-child malnutrition lookup of `Domain1Data.from_answers`. -/
def childMal (answers : FieldMap) (i : ℕ) : Option Bool :=
  toBoolOrNone (fmGetD answers (natKey "child" i "_malnutrition")
    (fmGetD answers (natKey "child" i "_malnourished")
      (fmGetD answers (natKey "child" i "_mal")
        (fmGetD answers (natKey "child" i "_is_malnourished") .vNone))))

/-- The child-building loop of `Domain1Data.from_answers`: a child record is
added only when at least one of its fields is known; pydantic validation of
each constructed `ChildInfo` may fail. -/
def buildChildren (answers : FieldMap) : List ℕ → Except Str (List ChildInfo)
  | [] => .ok []
  | i :: rest =>
      let age := childAge answers i
      let mal := childMal answers i
      if age ≠ none ∨ mal ≠ none then do
        let c ← mkChildInfo age mal
        let cs ← buildChildren answers rest
        return c :: cs
      else buildChildren answers rest

/-- The `n` computation of `Domain1Data.from_answers`: explicit count
preferred, else inferred from the highest child index in the keys, clamped
to be non-negative. -/
def d1Count (answers : FieldMap) : Option ℤ :=
  let maxIdx := maxChildIndex answers
  let nExplicit := toIntOrNone
    (fmGetD answers (str "num_children_under_5") (fmGetD answers (str "num_children") .vNone))
  let nInferred : Option ℤ := if 0 < maxIdx then some (maxIdx : ℤ) else none
  let n0 := match nExplicit with | some v => some v | none => nInferred
  n0.map (fun v => if v < 0 then 0 else v)

/-- The `upper` bound of the child loop of `Domain1Data.from_answers`:
`max_index`, raised to `n` when the declared count exceeds it. -/
def d1Upper (answers : FieldMap) : ℕ :=
  max (maxChildIndex answers) (match d1Count answers with | some v => v.toNat | none => 0)

/-- `Domain1Data.from_answers` of `src/models/domain1.py` (`strict_len` is the
keyword-only argument; pydantic `ValidationError`s surface as `Except.error`). -/
def Domain1Data.from_answers (answers : FieldMap) (strict_len : Bool) :
    Except Str Domain1Data := do
  let n := d1Count answers
  let children ← buildChildren answers (List.range' 1 (d1Upper answers))
  if strict_len then
    match n with
    | some v =>
        if (children.length : ℤ) ≠ v then
          throw (str "ValueError: children count mismatch")
        else pure ()
    | none => pure ()
  else pure ()
  let has_elderly := toBoolOrNone
    (fmGetD answers (str "has_elderly_members") (fmGetD answers (str "elderly") .vNone))
  let has_immuno := toBoolOrNone
    (fmGetD answers (str "has_immunocompromised_members")
      (fmGetD answers (str "immunocompromised") .vNone))
  let caregiver := CaregiverType.from_llm_value
    (fmGetD answers (str "primary_caregiver")
      (fmGetD answers (str "caregiver") (.vStr (str "Unknown"))))
  match n with
  | some v =>
      if v < 0 then throw (str "ValidationError: num_children_under_5 must be >= 0")
      else pure ()
  | none => pure ()
  return ⟨n, children, has_elderly, has_immuno, caregiver⟩

/-- `any(k in s for k in ks)`. -/
def anyKw (s : Str) (ks : List Str) : Bool := ks.any (fun k => containsStr s k)

/-- `WaterSource` of `src/models/domain2.py`. -/
inductive WaterSource where
  | PIPED | TUBEWELL | PROTECTED_WELL | SURFACE_WATER | OTHER | UNKNOWN
  deriving DecidableEq

/-- The `.value` strings of `WaterSource`. -/
def WaterSource.value : WaterSource → Str
  | .PIPED => str "Piped water"
  | .TUBEWELL => str "Tube well / borehole"
  | .PROTECTED_WELL => str "Protected well"
  | .SURFACE_WATER => str "Surface water (river/pond)"
  | .OTHER => str "Other"
  | .UNKNOWN => str "Unknown"

/-- Members of `WaterSource` in declaration order (Python enum iteration). -/
def WaterSource.members : List WaterSource :=
  [.PIPED, .TUBEWELL, .PROTECTED_WELL, .SURFACE_WATER, .OTHER, .UNKNOWN]

def WS_PIPED_KW : List Str := [str "piped", str "tap", str "pipe", str "house connection"]
def WS_TUBE_KW : List Str :=
  [str "tubewell", str "tube well", str "borehole", str "handpump", str "hand pump", str "well pump"]
def WS_PROT_KW : List Str := [str "protected well", str "covered well", str "sealed well"]
def WS_SURF_KW : List Str :=
  [str "river", str "pond", str "lake", str "stream", str "surface water", str "canal"]

/-- `WaterSource.from_llm_value` of `src/models/domain2.py`. -/
def WaterSource.from_llm_value (v : Value) : WaterSource :=
  let s := pyNorm v
  if s ∈ NA_STRINGS then .UNKNOWN
  else match WaterSource.members.find? (fun e => s = pyLower e.value) with
  | some e => e
  | none =>
    if anyKw s WS_PIPED_KW then .PIPED
    else if anyKw s WS_TUBE_KW then .TUBEWELL
    else if anyKw s WS_PROT_KW then .PROTECTED_WELL
    else if anyKw s WS_SURF_KW then .SURFACE_WATER
    else if s ≠ [] then .OTHER
    else .UNKNOWN

/-- `WaterTreatmentMethod` of `src/models/domain2.py`. -/
inductive WaterTreatmentMethod where
  | BOIL | FILTER | CHLORINE | OTHER | UNKNOWN
  deriving DecidableEq

def WTM_BOIL_KW : List Str := [str "boil", str "boiled", str "boiling"]
def WTM_FILTER_KW : List Str := [str "filter", str "filtered", str "filtration"]
def WTM_CHLORINE_KW : List Str := [str "chlorine", str "bleach", str "tablet", str "tabs"]

/-- `WaterTreatmentMethod.from_llm_value` of `src/models/domain2.py`. -/
def WaterTreatmentMethod.from_llm_value (v : Value) : WaterTreatmentMethod :=
  let s := pyNorm v
  if s ∈ NA_STRINGS then .UNKNOWN
  else if anyKw s WTM_BOIL_KW then .BOIL
  else if anyKw s WTM_FILTER_KW then .FILTER
  else if anyKw s WTM_CHLORINE_KW then .CHLORINE
  else if s ≠ [] then .OTHER
  else .UNKNOWN

/-- `ToiletType` of `src/models/domain2.py`. -/
inductive ToiletType where
  | FLUSH | PIT | SHARED | NONE | OTHER | UNKNOWN
  deriving DecidableEq

def TT_FLUSH_KW : List Str :=
  [str "flush", str "toilet with water", str "sewer", str "septic"]
def TT_PIT_KW : List Str := [str "pit", str "latrine"]
def TT_SHARED_KW : List Str := [str "shared", str "communal", str "public toilet"]
def TT_NONE_KW : List Str :=
  [str "open defecation", str "no toilet", str "bush", str "field"]

/-- `ToiletType.from_llm_value` of `src/models/domain2.py`. -/
def ToiletType.from_llm_value (v : Value) : ToiletType :=
  let s := pyNorm v
  if s ∈ NA_STRINGS then .UNKNOWN
  else if anyKw s TT_FLUSH_KW then .FLUSH
  else if anyKw s TT_PIT_KW then .PIT
  else if anyKw s TT_SHARED_KW then .SHARED
  else if anyKw s TT_NONE_KW then .NONE
  else if s ≠ [] then .OTHER
  else .UNKNOWN

/-- `HandwashingStation` of `src/models/domain2.py`. -/
inductive HandwashingStation where
  | SOAP_AND_WATER | WATER_ONLY | NONE | UNKNOWN
  deriving DecidableEq

/-- The `.value` strings of `HandwashingStation`. -/
def HandwashingStation.value : HandwashingStation → Str
  | .SOAP_AND_WATER => str "Yes, with soap and water"
  | .WATER_ONLY => str "Water only"
  | .NONE => str "No designated place"
  | .UNKNOWN => str "Unknown"

/-- Members of `HandwashingStation` in declaration order. -/
def HandwashingStation.members : List HandwashingStation :=
  [.SOAP_AND_WATER, .WATER_ONLY, .NONE, .UNKNOWN]

def HS_SOAP_WITH_KW : List Str := [str "water", str "tap", str "station", str "place"]
def HS_WATER_ONLY_KW : List Str := [str "water only", str "only water", str "no soap"]
def HS_NEG_KW : List Str :=
  [str "no", str "none", str "not have", str "don\x27t have", str "without",
   str "no designated", str "no place"]
def HS_STATION_KW : List Str :=
  [str "station", str "place", str "handwash", str "hand wash", str "washing hands",
   str "sink", str "tap"]

/-- `HandwashingStation.from_llm_value` of `src/models/domain2.py`. -/
def HandwashingStation.from_llm_value (v : Value) : HandwashingStation :=
  let s := pyNorm v
  if s ∈ NA_STRINGS then .UNKNOWN
  else match HandwashingStation.members.find? (fun e => s = pyLower e.value) with
  | some e => e
  | none =>
    if containsStr s (str "soap") && anyKw s HS_SOAP_WITH_KW then .SOAP_AND_WATER
    else if anyKw s HS_WATER_ONLY_KW then .WATER_ONLY
    else if anyKw s HS_NEG_KW && anyKw s HS_STATION_KW then .NONE
    else .UNKNOWN

/-- `HandwashFrequency` of `src/models/domain2.py`. -/
inductive HandwashFrequency where
  | ALWAYS | SOMETIMES | RARELY | NEVER | UNKNOWN
  deriving DecidableEq

def HF_ALWAYS_KW : List Str := [str "always", str "every time", str "all the time"]
def HF_SOMETIMES_KW : List Str :=
  [str "sometimes", str "often", str "usually", str "most of the time"]
def HF_RARELY_KW : List Str :=
  [str "rarely", str "seldom", str "occasionally", str "not often"]
def HF_NEVER_KW : List Str :=
  [str "never", str "almost never", str "do not", str "don\x27t"]

/-- `HandwashFrequency.from_llm_value` of `src/models/domain2.py`. -/
def HandwashFrequency.from_llm_value (v : Value) : HandwashFrequency :=
  let s := pyNorm v
  if s ∈ NA_STRINGS then .UNKNOWN
  else if anyKw s HF_ALWAYS_KW then .ALWAYS
  else if anyKw s HF_SOMETIMES_KW then .SOMETIMES
  else if anyKw s HF_RARELY_KW then .RARELY
  else if anyKw s HF_NEVER_KW then .NEVER
  else .UNKNOWN

/-- `Domain2Data` of `src/models/domain2.py` (fields, with their defaults all
`Unknown`/`None`). -/
structure Domain2Data where
  water_source : WaterSource := .UNKNOWN
  treats_water : Option Bool := none
  water_treatment_method : WaterTreatmentMethod := .UNKNOWN
  toilet_type : ToiletType := .UNKNOWN
  handwashing_station : HandwashingStation := .UNKNOWN
  washes_after_toilet : HandwashFrequency := .UNKNOWN
  deriving DecidableEq

/-- `Domain2Data.domain_weight` (0.20). -/
def Domain2Data.domain_weight (_ : Domain2Data) : ℚ := 1/5

/-- The `water_points` table of `Domain2Data.wash_risk_score`. -/
def waterPoints : WaterSource → ℚ
  | .PIPED => 1/2
  | .TUBEWELL => 3/2
  | .PROTECTED_WELL => 2
  | .SURFACE_WATER => 4
  | .OTHER => 5/2
  | .UNKNOWN => 2

/-- The `method_points` table of `Domain2Data.wash_risk_score`. -/
def methodPoints : WaterTreatmentMethod → ℚ
  | .BOIL => 3/10
  | .FILTER => 7/10
  | .CHLORINE => 1/2
  | .OTHER => 1
  | .UNKNOWN => 12/10

/-- The `toilet_points` table of `Domain2Data.wash_risk_score`. -/
def toiletPoints : ToiletType → ℚ
  | .FLUSH => 1/2
  | .PIT => 2
  | .SHARED => 5/2
  | .NONE => 4
  | .OTHER => 2
  | .UNKNOWN => 2

/-- The `station_points` table of `Domain2Data.wash_risk_score`. -/
def stationPoints : HandwashingStation → ℚ
  | .SOAP_AND_WATER => 1/5
  | .WATER_ONLY => 3/2
  | .NONE => 3
  | .UNKNOWN => 3/2

/-- The `freq_points` table of `Domain2Data.wash_risk_score`. -/
def freqPoints : HandwashFrequency → ℚ
  | .ALWAYS => 1/5
  | .SOMETIMES => 12/10
  | .RARELY => 5/2
  | .NEVER => 7/2
  | .UNKNOWN => 3/2

/-- `Domain2Data.wash_risk_score` of `src/models/domain2.py`: additive points,
rounded once at the end. -/
def Domain2Data.wash_risk_score (d : Domain2Data) : ℚ :=
  let score : ℚ := 0
  let score := score + waterPoints d.water_source
  let score := score +
    (match d.treats_water with
     | some false => 5/2
     | some true => methodPoints d.water_treatment_method
     | none => 12/10)
  let score := score + toiletPoints d.toilet_type
  let score := score + stationPoints d.handwashing_station
  let score := score + freqPoints d.washes_after_toilet
  round2 score

/-- The fully-unknown `Domain2Data` (all fields at their defaults). -/
def Domain2Data.allUnknown : Domain2Data :=
  ⟨.UNKNOWN, none, .UNKNOWN, .UNKNOWN, .UNKNOWN, .UNKNOWN⟩

/-- JSON values, for the adapter `coerce_model_output_to_dict` of `src/util.py`. -/
inductive Json where
  | jNull
  | jBool (b : Bool)
  | jNum (q : ℚ)
  | jStr (s : Str)
  | jArr (elems : List Json)
  | jObj (fields : List (Str × Json))

/-- A parsed JSON object (Python dict). -/
abbrev JsonMap := List (Str × Json)

/-- Lookup in a parsed JSON object. -/
def jmGet (m : JsonMap) (k : Str) : Option Json :=
  (m.find? (fun p => p.1 = k)).map (fun p => p.2)

/-- `json.loads` as reached from `src/util.py`.  `util.py` imports `re`,
`pathlib` and `typing` but never `json`, so at every `json.loads(...)` call
site the name `json` is unbound and the call raises `NameError` (which the
surrounding `try`/`except Exception` swallows). -/
def jsonLoadsInUtil (_s : Str) : Except Str Json :=
  .error (str "NameError: name json is not defined")

/-- A part of a structured model response: it either carries an `args`
attribute (a tool-call payload string) or it does not. -/
inductive ToolPart where
  | withArgs (args : Str)
  | noArgs
  deriving DecidableEq

/-- A non-dict model output: an object with a (possibly empty) `parts`
attribute and an optional string `text` attribute.  An object lacking the
`parts` attribute behaves like one with an empty `parts` list (the
`hasattr(obj, "parts") and obj.parts` guard fails either way), and `text`
being absent or not a string is `none`. -/
structure ModelObj where
  parts : List ToolPart
  text : Option Str
  deriving DecidableEq

/-- Input to `coerce_model_output_to_dict`: already a dict, or a response
object. -/
inductive CoerceInput where
  | dict (d : JsonMap)
  | obj (o : ModelObj)

/-- The envelope unwrapping of `coerce_model_output_to_dict`: a payload
wrapping the map under the single key `"response"` (itself a dict) yields
the inner map. -/
def unwrapResponse (m : JsonMap) : JsonMap :=
  match jmGet m (str "response") with
  | some (.jObj inner) => inner
  | _ => m

/-- The tool-call loop of `coerce_model_output_to_dict`: first part whose
`args` parse to a dict wins; parse failures and non-dict payloads are
skipped. -/
def partsAttempt : List ToolPart → Option JsonMap
  | [] => none
  | .noArgs :: rest => partsAttempt rest
  | .withArgs a :: rest =>
      match jsonLoadsInUtil a with
      | .ok (.jObj m) => some (unwrapResponse m)
      | .ok _ => partsAttempt rest
      | .error _ => partsAttempt rest

/-- Python `s.find(c)`. -/
def findIdx (s : Str) (c : Char) : Option ℕ := s.findIdx? (fun x => x = c)

/-- Python `s.rfind(c)`. -/
def rfindIdx (s : Str) (c : Char) : Option ℕ :=
  match s.reverse.findIdx? (fun x => x = c) with
  | some j => some (s.length - 1 - j)
  | none => none

/-- Python `s[a:b]`. -/
def slice (s : Str) (a b : ℕ) : Str := (s.take b).drop a

/-- The `.text` fallback of `coerce_model_output_to_dict`: the substring from
the first `{` to the last `}` of the stripped text, parsed as JSON. -/
def textAttempt (text : Str) : Option JsonMap :=
  if pyStrip text ≠ [] then
    let t := pyStrip text
    match findIdx t '{', rfindIdx t '}' with
    | some a, some b =>
        if a < b then
          match jsonLoadsInUtil (slice t a (b + 1)) with
          | .ok (.jObj m) => some (unwrapResponse m)
          | _ => none
        else none
    | _, _ => none
  else none

/-- `coerce_model_output_to_dict` of `src/util.py`.  All exceptions raised
inside are caught by the function itself, so it returns; `Except` makes this
explicit. -/
def coerce_model_output_to_dict (x : CoerceInput) : Except Str JsonMap :=
  match x with
  | .dict d => .ok d
  | .obj o =>
      match (if o.parts ≠ [] then partsAttempt o.parts else none) with
      | some m => .ok m
      | none =>
          match o.text with
          | some t =>
              match textAttempt t with
              | some m => .ok m
              | none => .ok []
          | none => .ok []

/-- Word characters of the regex `\b` boundary (`\w`, ASCII range). -/
def isWordChar (c : Char) : Bool := c.isAlphanum || c = '_'

/-- `\b` holds before the current position, given the previous character. -/
def boundaryL : Option Char → Bool
  | none => true
  | some c => ¬ isWordChar c

/-- `\b` holds at the start of the remaining characters. -/
def boundaryR : Str → Bool
  | [] => true
  | c :: _ => ¬ isWordChar c

/-- `re.search(rf"\b{w}\b", s)` for a word `w` of word characters:
scan for an occurrence of `w` flanked by boundaries. -/
def wordSearchAux (w : Str) (prev : Option Char) : Str → Bool
  | [] => w = [] && boundaryL prev
  | c :: t =>
      (boundaryL prev && w.isPrefixOf (c :: t) && boundaryR ((c :: t).drop w.length)) ||
      wordSearchAux w (some c) t

/-- `re.search(rf"\b{w}\b", s)`. -/
def wordSearch (w s : Str) : Bool := wordSearchAux w none s

/-- Search for `w` preceded by a `\b` boundary (no right boundary), as in the
`\bchild` branch of the alternation `\bchild|children|kid|kids\b`. -/
def searchLB (w : Str) (prev : Option Char) : Str → Bool
  | [] => w = [] && boundaryL prev
  | c :: t => (boundaryL prev && w.isPrefixOf (c :: t)) || searchLB w (some c) t

/-- Search for `w` followed by a `\b` boundary (no left boundary), as in the
`kids\b` branch. -/
def searchRB (w : Str) : Str → Bool
  | [] => w = []
  | c :: t => (w.isPrefixOf (c :: t) && boundaryR ((c :: t).drop w.length)) || searchRB w t

/-- `re.search(r"\b([0-9]+)\b", s)`: the leftmost standalone digit run. -/
def findIntToken (prev : Option Char) : Str → Option ℕ
  | [] => none
  | c :: t =>
      if c.isDigit && boundaryL prev then
        let ds := (c :: t).takeWhile Char.isDigit
        let rest := (c :: t).dropWhile Char.isDigit
        if boundaryR rest then some (digitsToNat ds)
        else findIntToken (some c) t
      else findIntToken (some c) t

/-- `_extract_int_0_2` of `src/agents/domain1_agent.py`: word-number match
first, then the first standalone integer token if it is 0/1/2, then the
"no children" idiom. -/
def extract_int_0_2 (text : Str) : Option ℤ :=
  let s := pyLower (pyStrip text)
  if wordSearch (str "zero") s then some 0
  else if wordSearch (str "none") s then some 0
  else if wordSearch (str "one") s then some 1
  else if wordSearch (str "two") s then some 2
  else
    let fromNum : Option ℤ :=
      match findIntToken none s with
      | some v => if v = 0 ∨ v = 1 ∨ v = 2 then some (v : ℤ) else none
      | none => none
    match fromNum with
    | some v => some v
    | none =>
        if wordSearch (str "no") s &&
           (searchLB (str "child") none s || containsStr s (str "children") ||
            containsStr s (str "kid") || searchRB (str "kids") s)
        then some 0
        else none

/-- Verdict statuses of the validation oracle. -/
inductive VStatus where
  | OK | NEED_FOLLOWUP | GIVE_UP
  deriving DecidableEq

/-- `ValidationDecision` of `src/agents/domain1_agent.py`. -/
structure ValidationDecision where
  status : VStatus
  followup : Option Str := none
  note : Option Str := none
  deriving DecidableEq

/-- The mutable state of `run_domain1_survey`: the current question index,
the per-question `followup_used` flags (the Python list of six booleans, as a
function), and `n_children`.  The transcript lines are not part of the state
needed here; the observable events are collected in the run trace. -/
structure SurveyState where
  qIdx : ℕ
  followupUsed : ℕ → Bool
  nChildren : Option ℤ

/-- `should_skip` of `run_domain1_survey`. -/
def shouldSkip (n : Option ℤ) (idx : ℕ) : Bool :=
  if idx = 0 then false
  else match n with
  | none => false
  | some k =>
      if k = 0 && (idx = 1 || idx = 2 || idx = 3 || idx = 4) then true
      else if k = 1 && (idx = 3 || idx = 4) then true
      else false

/-- Observable events of a survey run: a validator verdict processed for a
question index, and the two terminal outcomes of an index (answered, or
recorded as NA). -/
inductive TraceEntry where
  | verdict (i : ℕ) (st : VStatus)
  | answered (i : ℕ)
  | recordedNA (i : ℕ)
  deriving DecidableEq

/-- The `while q_idx < 6 and should_skip(q_idx)` chain after an advance:
records NA for every skipped index (fuel-bounded by the script length 6). -/
def skipChainAux (n : Option ℤ) : ℕ → ℕ → ℕ × List TraceEntry
  | 0, i => (i, [])
  | fuel + 1, i =>
      if i < 6 && shouldSkip n i then
        let r := skipChainAux n fuel (i + 1)
        (r.1, .recordedNA i :: r.2)
      else (i, [])

/-- Advance past question `i`, skipping the not-applicable tail. -/
def advanceFrom (n : Option ℤ) (i : ℕ) : ℕ × List TraceEntry :=
  skipChainAux n 6 (i + 1)

/-- Update one entry of the `followup_used` flags. -/
def setFlag (f : ℕ → Bool) (i : ℕ) (b : Bool) : ℕ → Bool :=
  fun j => if j = i then b else f j

/-- One iteration of the `run_domain1_survey` loop on a non-empty respondent
answer and the verdict the validator returned for it (empty answers are
re-requested without reaching the validator, and are therefore not steps).
`NEED_FOLLOWUP` sets the retry flag and stays; `GIVE_UP` records NA and
advances; `OK` (after `q_idx == 0` parses the count) marks the question
answered and advances.  After index 5 the loop has exited and nothing is
processed. -/
def step (s : SurveyState) (ans : Str) (d : ValidationDecision) :
    SurveyState × List TraceEntry :=
  if 6 ≤ s.qIdx then (s, [])
  else
    match d.status with
    | .NEED_FOLLOWUP =>
        ({ s with followupUsed := setFlag s.followupUsed s.qIdx true },
         [.verdict s.qIdx .NEED_FOLLOWUP])
    | .GIVE_UP =>
        let adv := advanceFrom s.nChildren s.qIdx
        (⟨adv.1, setFlag s.followupUsed s.qIdx false, s.nChildren⟩,
         .verdict s.qIdx .GIVE_UP :: .recordedNA s.qIdx :: adv.2)
    | .OK =>
        let n2 := if s.qIdx = 0 then extract_int_0_2 ans else s.nChildren
        let adv := advanceFrom n2 s.qIdx
        (⟨adv.1, setFlag s.followupUsed s.qIdx false, n2⟩,
         .verdict s.qIdx .OK :: .answered s.qIdx :: adv.2)

/-- The initial state: at question 0, no retry used, count unknown. -/
def initialState : SurveyState := ⟨0, fun _ => false, none⟩

/-- Run the survey on an explicit list of (answer, verdict) pairs. -/
def runSteps :
    SurveyState → List TraceEntry → List (Str × ValidationDecision) →
      SurveyState × List TraceEntry
  | s, tr, [] => (s, tr)
  | s, tr, (a, d) :: rest =>
      let p := step s a d
      runSteps p.1 (tr ++ p.2) rest

/-- Run the survey from the initial state on (answer, verdict) pairs. -/
def runSurvey (inputs : List (Str × ValidationDecision)) :
    SurveyState × List TraceEntry :=
  runSteps initialState [] inputs

/-- Run the survey against a validator function, which receives the question
index, the current `followup_used` flag of that index, and the answer —
exactly the context `run_domain1_survey` sends to the validation agent. -/
def runValidated (V : ℕ → Bool → Str → ValidationDecision) :
    SurveyState → List TraceEntry → List Str → SurveyState × List TraceEntry
  | s, tr, [] => (s, tr)
  | s, tr, a :: rest =>
      let p := step s a (V s.qIdx (s.followupUsed s.qIdx) a)
      runValidated V p.1 (tr ++ p.2) rest

/-- Run against a validator from the initial state. -/
def runSurveyValidated (V : ℕ → Bool → Str → ValidationDecision)
    (answers : List Str) : SurveyState × List TraceEntry :=
  runValidated V initialState [] answers

/-- Number of `NEED_FOLLOWUP` verdicts processed for question index `i`. -/
def nfCount (tr : List TraceEntry) (i : ℕ) : ℕ :=
  tr.count (.verdict i .NEED_FOLLOWUP)

/-- Whether index `i` has reached a terminal status in the trace. -/
def isTerminalIn (tr : List TraceEntry) (i : ℕ) : Bool :=
  tr.any (fun e => e = .answered i || e = .recordedNA i)

/-! ## Claim theorems -/

/-- C1: for `{"num_children_under_5": 2, "child1_age": 10,
"child1_malnutrition": true}` with no child-2 keys, `from_answers` with
`strict_len = False` returns a record with exactly one child sub-record
(age 10, malnutrition true), `num_children_under_5 = 2` (declared count 2 and
observed count 1 both preserved, unreconciled), and no error is raised. -/
theorem c1_partial_children_preserved :
    Domain1Data.from_answers
      [(str "num_children_under_5", .vInt 2), (str "child1_age", .vInt 10),
       (str "child1_malnutrition", .vBool true)] false =
      .ok ⟨some 2, [⟨some 10, some true⟩], none, none, .UNKNOWN⟩ := by
  with_unfolding_all rfl

/-- C2 counterexample: a `Domain2Data` with every field unknown has
`wash_risk_score` 8.2 (each unknown category contributes its fixed
middle-risk points), not 0.0 as the claim states. -/
theorem c2_counterexample_wash_all_unknown :
    Domain2Data.wash_risk_score Domain2Data.allUnknown = 41/5 ∧
    Domain2Data.wash_risk_score Domain2Data.allUnknown ≠ 0 := by
  constructor
  · with_unfolding_all decide
  · with_unfolding_all decide

/-- C2 amended: a `Domain1Data` whose children all have unknown age (zero
computable items) has `overall_vulnerability_score` exactly 0.0; but a
`Domain2Data` with every field unknown has `wash_risk_score` 8.2, not 0.0 —
its aggregate is additive and unknown fields score fixed middle-risk points. -/
theorem c2_amended_zero_items :
    (∀ d : Domain1Data, (∀ c ∈ d.children, c.age_months = none) →
        d.overall_vulnerability_score = 0) ∧
    Domain2Data.wash_risk_score Domain2Data.allUnknown = 41/5 := by
  constructor
  · intro d h
    have hnil : d.children.filterMap ChildInfo.vulnerability_score = [] := by
      rw [List.filterMap_eq_nil_iff]
      intro c hc
      have har : c.age_range = none := by
        unfold ChildInfo.age_range
        rw [h c hc]
      unfold ChildInfo.vulnerability_score
      rw [har]
    unfold Domain1Data.overall_vulnerability_score
    simp [hnil]
  · with_unfolding_all decide

/-- C2 amended, witness: a concrete record with one child of unknown age
scores exactly 0. -/
theorem c2_amended_zero_items_witness :
    Domain1Data.overall_vulnerability_score
      ⟨some 2, [⟨none, some true⟩], some true, some true, .SINGLE_MOTHER⟩ = 0 :=
  c2_amended_zero_items.1 _ (by decide)

/-- C5: one child aged 10 months with confirmed malnutrition, caregiver not a
single parent, elderly/immunocompromised not `True`: the child scores
`round(2.26 × 1.14, 2) = 2.58`, the aggregate is 2.58, and the summary's
weighted score with domain weight 0.10 is 0.26. -/
theorem c5_scenario_child_scores (n : Option ℤ) (e i : Option Bool)
    (cg : CaregiverType)
    (h1 : cg ≠ .SINGLE_MOTHER) (h2 : cg ≠ .SINGLE_FATHER)
    (h3 : e ≠ some true) (h4 : i ≠ some true) :
    ChildInfo.vulnerability_score ⟨some 10, some true⟩ = some (258/100) ∧
    Domain1Data.overall_vulnerability_score
      ⟨n, [⟨some 10, some true⟩], e, i, cg⟩ = 258/100 ∧
    (Domain1Data.get_risk_summary
      ⟨n, [⟨some 10, some true⟩], e, i, cg⟩).weighted_score = 26/100 := by
  suffices hs : ChildInfo.vulnerability_score ⟨some 10, some true⟩ = some (258/100) ∧
      Domain1Data.overall_vulnerability_score
        ⟨some 1, [⟨some 10, some true⟩], e, i, cg⟩ = 258/100 ∧
      (Domain1Data.get_risk_summary
        ⟨some 1, [⟨some 10, some true⟩], e, i, cg⟩).weighted_score = 26/100 by
    exact ⟨hs.1, hs.2.1, hs.2.2⟩
  have he : e = none ∨ e = some false := by
    rcases e with _ | eb
    · exact Or.inl rfl
    · cases eb
      · exact Or.inr rfl
      · exact absurd rfl h3
  have hi : i = none ∨ i = some false := by
    rcases i with _ | ib
    · exact Or.inl rfl
    · cases ib
      · exact Or.inr rfl
      · exact absurd rfl h4
  refine ⟨by with_unfolding_all decide, ?_, ?_⟩ <;>
    rcases he with rfl | rfl <;> rcases hi with rfl | rfl <;> cases cg <;>
      first
        | exact absurd rfl h1
        | exact absurd rfl h2
        | with_unfolding_all decide

/-- C5, witness at a concrete record. -/
theorem c5_scenario_child_scores_witness :
    Domain1Data.overall_vulnerability_score
      ⟨some 1, [⟨some 10, some true⟩], none, none, .UNKNOWN⟩ = 258/100 :=
  (c5_scenario_child_scores (some 1) none none .UNKNOWN
    (by decide) (by decide) (by decide) (by decide)).2.1

/-- C7 (code bug): `util.py` never imports `json`, so a structured response
carrying a tool-call part with parseable `args` still coerces to the empty
map — the `json.loads` call raises `NameError`, which the `except` swallows.
The claim (and the code's own docstring) say the parsed payload is returned. -/
theorem c7_tool_call_payload_returns_empty :
    coerce_model_output_to_dict
      (.obj ⟨[.withArgs (str "\x7b\"a\": 1\x7d")], none⟩) = .ok [] := rfl

/-- Under the missing `json` import, no tool-call part ever parses. -/
lemma partsAttempt_eq_none (l : List ToolPart) : partsAttempt l = none := by
  induction l with
  | nil => rfl
  | cons p rest ih => cases p <;> exact ih

/-- Under the missing `json` import, the `.text` fallback never parses. -/
lemma textAttempt_eq_none (t : Str) : textAttempt t = none := by
  unfold textAttempt
  by_cases h : pyStrip t ≠ []
  · rw [if_pos h]
    cases hf : findIdx (pyStrip t) '{' with
    | none => simp [hf]
    | some a =>
        cases hr : rfindIdx (pyStrip t) '}' with
        | none => simp [hf, hr]
        | some b => simp [hf, hr, jsonLoadsInUtil]
  · rw [if_neg h]

/-- C8: the adapter is total — it returns a map to its caller on every input
(never an uncaught exception), a dict input is returned as-is, and every
non-dict input falls through to the empty map. -/
theorem c8_adapter_total_empty_fallback :
    ∀ x : CoerceInput, coerce_model_output_to_dict x =
      .ok (match x with | .dict d => d | .obj _ => []) := by
  intro x
  cases x with
  | dict d => rfl
  | obj o =>
      obtain ⟨ps, tx⟩ := o
      show coerce_model_output_to_dict (.obj ⟨ps, tx⟩) = .ok []
      simp only [coerce_model_output_to_dict]
      have h1 : (if ps ≠ [] then partsAttempt ps else none) = none := by
        split
        · exact partsAttempt_eq_none ps
        · rfl
      rw [h1]
      cases tx with
      | none => rfl
      | some t => simp [textAttempt_eq_none]

/-- C10: `from_answers` builds candidate sub-records up to the larger of the
declared count and the highest flat-key child index: with
`num_children_under_5 = 2` a `child3_age` key still yields child 3's
sub-record, and with three child keys the observed sub-record count (3)
exceeds the declared count (2). -/
theorem c10_extra_child_indices_included :
    Domain1Data.from_answers
      [(str "num_children_under_5", .vInt 2), (str "child3_age", .vInt 5)] false =
      .ok ⟨some 2, [⟨some 5, none⟩], none, none, .UNKNOWN⟩ ∧
    Domain1Data.from_answers
      [(str "num_children_under_5", .vInt 2), (str "child1_age", .vInt 4),
       (str "child2_age", .vInt 8), (str "child3_age", .vInt 12)] false =
      .ok ⟨some 2, [⟨some 4, none⟩, ⟨some 8, none⟩, ⟨some 12, none⟩],
           none, none, .UNKNOWN⟩ := by
  constructor
  · with_unfolding_all rfl
  · with_unfolding_all rfl

/-- C6 counterexample: `_to_int_or_none` parses the whole value with Python
`int()`, not the first standalone integer token, so `"10 months"` normalizes
to unknown rather than 10; and an out-of-range age (70) is parsed, passed to
`ChildInfo`, and makes `from_answers` raise a pydantic `ValidationError`
instead of yielding unknown. -/
theorem c6_counterexample_int_normalization :
    toIntOrNone (.vStr (str "10 months")) = none ∧
    Domain1Data.from_answers [(str "child1_age", .vStr (str "70"))] false =
      .error (str "ValidationError: age_months out of range 0..60") :=
  ⟨by decide, by with_unfolding_all rfl⟩

/-- A failure of the child-building loop propagates out of `from_answers`. -/
lemma from_answers_error_of_buildChildren (answers : FieldMap) (b : Bool)
    (e : Str)
    (h : buildChildren answers (List.range' 1 (d1Upper answers)) = .error e) :
    Domain1Data.from_answers answers b = .error e := by
  simp only [Domain1Data.from_answers]
  rw [h]
  rfl

/-- C6 amended: integer normalization parses the entire stripped value as a
Python `int` (unparsable values and NA sentinels yield unknown, and a value
such as `"10 months"` yields unknown rather than its first token); a value
parsing to an integer above the declared 0–60 month range is preserved
un-clamped and makes `from_answers` raise the `ChildInfo` field validation
error rather than yield unknown. -/
theorem c6_amended_out_of_range_raises (s : Str) (v : ℤ)
    (hp : pyIntParse (pyStrip s) = some v)
    (hna : pyLower (pyStrip s) ∉ NA_STRINGS)
    (hv : 60 < v) :
    toIntOrNone (.vStr s) = some v ∧
    Domain1Data.from_answers [(str "child1_age", .vStr s)] false =
      .error (str "ValidationError: age_months out of range 0..60") := by
  have htoi : toIntOrNone (.vStr s) = some v := by
    simp only [toIntOrNone, pyStr]
    rw [if_neg hna, hp]
  refine ⟨htoi, ?_⟩
  apply from_answers_error_of_buildChildren
  have hrange : List.range' 1 (d1Upper [(str "child1_age", .vStr s)]) = [1] := by
    with_unfolding_all rfl
  rw [hrange]
  have hage : childAge [(str "child1_age", .vStr s)] 1 = some v := by
    have h0 : childAge [(str "child1_age", .vStr s)] 1 = toIntOrNone (.vStr s) := by
      with_unfolding_all rfl
    rw [h0, htoi]
  have hmal : childMal [(str "child1_age", .vStr s)] 1 = none := by
    with_unfolding_all rfl
  simp only [buildChildren, hage, hmal]
  rw [if_pos (Or.inl (by simp))]
  simp only [mkChildInfo]
  rw [if_neg (by omega)]
  rfl

/-- C6 amended, witness at the raw value `"70"`. -/
theorem c6_amended_out_of_range_raises_witness :
    toIntOrNone (.vStr (str "70")) = some 70 ∧
    Domain1Data.from_answers [(str "child1_age", .vStr (str "70"))] false =
      .error (str "ValidationError: age_months out of range 0..60") :=
  c6_amended_out_of_range_raises (str "70") 70 (by decide) (by decide) (by decide)

/-- The NA-sentinel inputs of the claim: Python `None`, or a string whose
stripped, case-folded form is one of `"na"`, `"n/a"`, `"null"`, `"none"`,
`"unknown"`, `""`. -/
def isNASentinel : Value → Bool
  | .vNone => true
  | .vStr s => decide (pyLower (pyStrip s) ∈ NA_STRINGS)
  | _ => false

/-- `_norm` on a string value is strip-then-lowercase of that string. -/
lemma pyNorm_vStr (s : Str) : pyNorm (.vStr s) = pyLower (pyStrip s) := by
  by_cases h : s = []
  · subst h; rfl
  · simp [pyNorm, pyOrEmpty, truthy, pyStr, h]

/-- C9: every NA-sentinel input (each sentinel string in any letter case,
with surrounding whitespace, and Python `None`) maps to the `Unknown` variant
under all six category-normalization functions. -/
theorem c9_na_sentinels_to_unknown (v : Value) (h : isNASentinel v = true) :
    CaregiverType.from_llm_value v = .UNKNOWN ∧
    WaterSource.from_llm_value v = .UNKNOWN ∧
    WaterTreatmentMethod.from_llm_value v = .UNKNOWN ∧
    ToiletType.from_llm_value v = .UNKNOWN ∧
    HandwashingStation.from_llm_value v = .UNKNOWN ∧
    HandwashFrequency.from_llm_value v = .UNKNOWN := by
  have hna : pyNorm v ∈ NA_STRINGS := by
    cases v with
    | vNone => decide
    | vInt n => simp [isNASentinel] at h
    | vBool b => simp [isNASentinel] at h
    | vStr s =>
        rw [pyNorm_vStr]
        simpa [isNASentinel] using h
  refine ⟨?_, ?_, ?_, ?_, ?_, ?_⟩
  · have hlow : pyLower (pyStrip (pyStr (pyOrEmpty v))) ∈ NA_STRINGS := hna
    simp only [CaregiverType.from_llm_value]
    split_ifs with g1 g2 g3 g4 g5 g6 g7 <;> try rfl
    · rw [g1] at hlow; exact absurd hlow (by decide)
    · rw [g2] at hlow; exact absurd hlow (by decide)
    · rw [g3] at hlow; exact absurd hlow (by decide)
    · rw [g4] at hlow; exact absurd hlow (by decide)
    · rw [g5] at hlow; exact absurd hlow (by decide)
    · rw [g6] at hlow; exact absurd hlow (by decide)
  · simp only [WaterSource.from_llm_value]
    rw [if_pos hna]
  · simp only [WaterTreatmentMethod.from_llm_value]
    rw [if_pos hna]
  · simp only [ToiletType.from_llm_value]
    rw [if_pos hna]
  · simp only [HandwashingStation.from_llm_value]
    rw [if_pos hna]
  · simp only [HandwashFrequency.from_llm_value]
    rw [if_pos hna]

/-- C9, witness at the sentinel `" N/A "`. -/
theorem c9_na_sentinels_to_unknown_witness :
    isNASentinel (.vStr (str " N/A ")) = true ∧
    WaterSource.from_llm_value (.vStr (str " N/A ")) = .UNKNOWN :=
  ⟨by decide, (c9_na_sentinels_to_unknown (.vStr (str " N/A ")) (by decide)).2.1⟩

/-- All canonical-value and keyword matches of `WaterSource.from_llm_value`. -/
def wsMatchHit (s : Str) : Bool :=
  WaterSource.members.any (fun e => s = pyLower e.value) ||
  anyKw s WS_PIPED_KW || anyKw s WS_TUBE_KW || anyKw s WS_PROT_KW || anyKw s WS_SURF_KW

/-- All keyword matches of `WaterTreatmentMethod.from_llm_value`. -/
def wtmMatchHit (s : Str) : Bool :=
  anyKw s WTM_BOIL_KW || anyKw s WTM_FILTER_KW || anyKw s WTM_CHLORINE_KW

/-- All keyword matches of `ToiletType.from_llm_value`. -/
def ttMatchHit (s : Str) : Bool :=
  anyKw s TT_FLUSH_KW || anyKw s TT_PIT_KW || anyKw s TT_SHARED_KW || anyKw s TT_NONE_KW

/-- The exact label lookups of `CaregiverType.from_llm_value`. -/
def cgKeyHit (s : Str) : Bool :=
  [str "Both parents", str "Single mother", str "Single father", str "Grandparent",
   str "Other relative", str "Other", str "Unknown"].any (fun k => s = k)

/-- All canonical-value and keyword matches of
`HandwashingStation.from_llm_value`. -/
def hsMatchHit (s : Str) : Bool :=
  HandwashingStation.members.any (fun e => s = pyLower e.value) ||
  (containsStr s (str "soap") && anyKw s HS_SOAP_WITH_KW) ||
  anyKw s HS_WATER_ONLY_KW || (anyKw s HS_NEG_KW && anyKw s HS_STATION_KW)

/-- All keyword matches of `HandwashFrequency.from_llm_value`. -/
def hfMatchHit (s : Str) : Bool :=
  anyKw s HF_ALWAYS_KW || anyKw s HF_SOMETIMES_KW || anyKw s HF_RARELY_KW ||
  anyKw s HF_NEVER_KW

/-- C4 counterexample: `"bottled water"` matches none of the keyword sets of
`WaterSource.from_llm_value` and is not an NA sentinel, yet the function
returns `OTHER`, not `UNKNOWN`. -/
theorem c4_counterexample_other_fallback :
    wsMatchHit (pyNorm (.vStr (str "bottled water"))) = false ∧
    isNASentinel (.vStr (str "bottled water")) = false ∧
    WaterSource.from_llm_value (.vStr (str "bottled water")) = .OTHER ∧
    (WaterSource.OTHER : WaterSource) ≠ .UNKNOWN := by decide

/-- C4 amended: on inputs matching no keyword set and no canonical label,
`CaregiverType`, `HandwashingStation` and `HandwashFrequency` fall back to
`Unknown`; but `WaterSource`, `WaterTreatmentMethod` and `ToiletType` fall
back to `Other` for every non-NA non-matching input, reserving `Unknown` for
NA sentinels. -/
theorem c4_amended_no_match_fallbacks :
    (∀ v, cgKeyHit (pyStrip (pyStr (pyOrEmpty v))) = false →
        CaregiverType.from_llm_value v = .UNKNOWN) ∧
    (∀ v, hsMatchHit (pyNorm v) = false →
        HandwashingStation.from_llm_value v = .UNKNOWN) ∧
    (∀ v, hfMatchHit (pyNorm v) = false →
        HandwashFrequency.from_llm_value v = .UNKNOWN) ∧
    (∀ v, pyNorm v ∉ NA_STRINGS → wsMatchHit (pyNorm v) = false →
        WaterSource.from_llm_value v = .OTHER) ∧
    (∀ v, pyNorm v ∉ NA_STRINGS → wtmMatchHit (pyNorm v) = false →
        WaterTreatmentMethod.from_llm_value v = .OTHER) ∧
    (∀ v, pyNorm v ∉ NA_STRINGS → ttMatchHit (pyNorm v) = false →
        ToiletType.from_llm_value v = .OTHER) := by
  refine ⟨?_, ?_, ?_, ?_, ?_, ?_⟩
  · intro v h
    simp only [cgKeyHit, List.any_cons, List.any_nil, Bool.or_eq_false_iff,
      decide_eq_false_iff_not] at h
    obtain ⟨h1, h2, h3, h4, h5, h6, h7, -⟩ := h
    simp only [CaregiverType.from_llm_value]
    rw [if_neg h1, if_neg h2, if_neg h3, if_neg h4, if_neg h5, if_neg h6, if_neg h7]
  · intro v h
    simp only [hsMatchHit, Bool.or_eq_false_iff] at h
    obtain ⟨⟨⟨hcanon, hsoap⟩, honly⟩, hneg⟩ := h
    by_cases hna : pyNorm v ∈ NA_STRINGS
    · simp only [HandwashingStation.from_llm_value]
      rw [if_pos hna]
    · simp only [HandwashingStation.from_llm_value]
      rw [if_neg hna]
      have hfind := List.find?_eq_none.mpr (List.any_eq_false.mp hcanon)
      rw [hfind]
      rw [if_neg (by simp [hsoap]), if_neg (by simp [honly]), if_neg (by simp [hneg])]
  · intro v h
    simp only [hfMatchHit, Bool.or_eq_false_iff] at h
    obtain ⟨⟨⟨ha, hsm⟩, hr⟩, hn⟩ := h
    by_cases hna : pyNorm v ∈ NA_STRINGS
    · simp only [HandwashFrequency.from_llm_value]
      rw [if_pos hna]
    · simp only [HandwashFrequency.from_llm_value]
      rw [if_neg hna, if_neg (by simp [ha]), if_neg (by simp [hsm]),
          if_neg (by simp [hr]), if_neg (by simp [hn])]
  · intro v hna h
    simp only [wsMatchHit, Bool.or_eq_false_iff] at h
    obtain ⟨⟨⟨⟨hcanon, hp⟩, ht⟩, hpr⟩, hsu⟩ := h
    have hne : pyNorm v ≠ [] := by
      intro he
      apply hna
      rw [he]
      decide
    simp only [WaterSource.from_llm_value]
    rw [if_neg hna]
    have hfind := List.find?_eq_none.mpr (List.any_eq_false.mp hcanon)
    rw [hfind]
    rw [if_neg (by simp [hp]), if_neg (by simp [ht]), if_neg (by simp [hpr]),
        if_neg (by simp [hsu]), if_pos hne]
  · intro v hna h
    simp only [wtmMatchHit, Bool.or_eq_false_iff] at h
    obtain ⟨⟨hb, hf⟩, hc⟩ := h
    have hne : pyNorm v ≠ [] := by
      intro he
      apply hna
      rw [he]
      decide
    simp only [WaterTreatmentMethod.from_llm_value]
    rw [if_neg hna, if_neg (by simp [hb]), if_neg (by simp [hf]),
        if_neg (by simp [hc]), if_pos hne]
  · intro v hna h
    simp only [ttMatchHit, Bool.or_eq_false_iff] at h
    obtain ⟨⟨⟨hfl, hpit⟩, hsh⟩, hno⟩ := h
    have hne : pyNorm v ≠ [] := by
      intro he
      apply hna
      rw [he]
      decide
    simp only [ToiletType.from_llm_value]
    rw [if_neg hna, if_neg (by simp [hfl]), if_neg (by simp [hpit]),
        if_neg (by simp [hsh]), if_neg (by simp [hno]), if_pos hne]

/-- C4 amended, witness at the no-match input `"zzz"`. -/
theorem c4_amended_no_match_fallbacks_witness :
    cgKeyHit (pyStrip (pyStr (pyOrEmpty (.vStr (str "zzz"))))) = false ∧
    CaregiverType.from_llm_value (.vStr (str "zzz")) = .UNKNOWN ∧
    wsMatchHit (pyNorm (.vStr (str "zzz"))) = false ∧
    WaterSource.from_llm_value (.vStr (str "zzz")) = .OTHER := by
  refine ⟨by decide, ?_, by decide, ?_⟩
  · exact c4_amended_no_match_fallbacks.1 _ (by decide)
  · exact c4_amended_no_match_fallbacks.2.2.2.1 _ (by decide) (by decide)

/-- C3 counterexample: the state machine itself does not bound follow-ups —
if the validator (an external oracle) returns `NEED_FOLLOWUP` twice for the
same answer, both verdicts are processed at question index 0 before any
terminal status: the retry flag is set and passed back to the validator, but
nothing in `run_domain1_survey` forces the second verdict to be `OK` or
`GIVE_UP`. -/
theorem c3_counterexample_two_followups :
    nfCount (runSurvey
      [(str "maybe", ⟨.NEED_FOLLOWUP, some (str "Please reply with a number."), none⟩),
       (str "maybe", ⟨.NEED_FOLLOWUP, some (str "Please reply with a number."), none⟩)]).2 0 = 2 ∧
    isTerminalIn (runSurvey
      [(str "maybe", ⟨.NEED_FOLLOWUP, some (str "Please reply with a number."), none⟩),
       (str "maybe", ⟨.NEED_FOLLOWUP, some (str "Please reply with a number."), none⟩)]).2 0 = false := by
  decide

lemma nfCount_append (t u : List TraceEntry) (i : ℕ) :
    nfCount (t ++ u) i = nfCount t i + nfCount u i := by
  simp [nfCount, List.count_append]

lemma nfCount_cons_na (i : ℕ) (t : List TraceEntry) (j : ℕ) :
    nfCount (.recordedNA i :: t) j = nfCount t j := by
  simp [nfCount, List.count_cons]

lemma nfCount_cons_answered (i : ℕ) (t : List TraceEntry) (j : ℕ) :
    nfCount (.answered i :: t) j = nfCount t j := by
  simp [nfCount, List.count_cons]

lemma nfCount_cons_verdict (i : ℕ) (st : VStatus) (t : List TraceEntry) (j : ℕ) :
    nfCount (.verdict i st :: t) j =
      nfCount t j + (if i = j ∧ st = .NEED_FOLLOWUP then 1 else 0) := by
  by_cases h : i = j ∧ st = .NEED_FOLLOWUP
  · obtain ⟨rfl, rfl⟩ := h
    simp [nfCount, List.count_cons]
  · rw [if_neg h]
    have hne : TraceEntry.verdict i st ≠ .verdict j .NEED_FOLLOWUP := by
      intro he
      injection he with h1 h2
      exact h ⟨h1, h2⟩
    simp [nfCount, List.count_cons, hne]

/-- The skip chain only moves the index forward. -/
lemma skipChainAux_succ_pos (n : Option ℤ) (f i : ℕ)
    (hc : (i < 6 && shouldSkip n i) = true) :
    skipChainAux n (f + 1) i =
      ((skipChainAux n f (i + 1)).1,
        .recordedNA i :: (skipChainAux n f (i + 1)).2) := by
  simp [skipChainAux, hc]

lemma skipChainAux_succ_neg (n : Option ℤ) (f i : ℕ)
    (hc : ¬ (i < 6 && shouldSkip n i) = true) :
    skipChainAux n (f + 1) i = (i, []) := by
  simp only [skipChainAux]
  rw [if_neg hc]

lemma skipChainAux_ge (n : Option ℤ) (fuel : ℕ) :
    ∀ i, i ≤ (skipChainAux n fuel i).1 := by
  induction fuel with
  | zero => intro i; exact le_refl i
  | succ f ih =>
      intro i
      by_cases hc : (i < 6 && shouldSkip n i) = true
      · rw [skipChainAux_succ_pos n f i hc]
        exact le_trans (Nat.le_succ i) (ih (i + 1))
      · rw [skipChainAux_succ_neg n f i hc]

/-- The skip chain records only NA entries, never verdicts. -/
lemma nfCount_skipChain (n : Option ℤ) (fuel : ℕ) :
    ∀ i j, nfCount (skipChainAux n fuel i).2 j = 0 := by
  induction fuel with
  | zero => intro i j; rfl
  | succ f ih =>
      intro i j
      by_cases hc : (i < 6 && shouldSkip n i) = true
      · rw [skipChainAux_succ_pos n f i hc]
        show nfCount (.recordedNA i :: (skipChainAux n f (i + 1)).2) j = 0
        rw [nfCount_cons_na]
        exact ih (i + 1) j
      · rw [skipChainAux_succ_neg n f i hc]
        rfl

lemma step_out (s : SurveyState) (a : Str) (d : ValidationDecision)
    (h : 6 ≤ s.qIdx) : step s a d = (s, []) := by
  simp [step, h]

lemma step_eq_nf (s : SurveyState) (a : Str) (d : ValidationDecision)
    (h6 : ¬ 6 ≤ s.qIdx) (hd : d.status = .NEED_FOLLOWUP) :
    step s a d = ({ s with followupUsed := setFlag s.followupUsed s.qIdx true },
                  [.verdict s.qIdx .NEED_FOLLOWUP]) := by
  simp [step, h6, hd]

lemma step_eq_gu (s : SurveyState) (a : Str) (d : ValidationDecision)
    (h6 : ¬ 6 ≤ s.qIdx) (hd : d.status = .GIVE_UP) :
    step s a d =
      (⟨(advanceFrom s.nChildren s.qIdx).1, setFlag s.followupUsed s.qIdx false,
         s.nChildren⟩,
       .verdict s.qIdx .GIVE_UP :: .recordedNA s.qIdx ::
         (advanceFrom s.nChildren s.qIdx).2) := by
  simp [step, h6, hd]

lemma step_eq_ok (s : SurveyState) (a : Str) (d : ValidationDecision)
    (h6 : ¬ 6 ≤ s.qIdx) (hd : d.status = .OK) :
    step s a d =
      (⟨(advanceFrom (if s.qIdx = 0 then extract_int_0_2 a else s.nChildren) s.qIdx).1,
         setFlag s.followupUsed s.qIdx false,
         (if s.qIdx = 0 then extract_int_0_2 a else s.nChildren)⟩,
       .verdict s.qIdx .OK :: .answered s.qIdx ::
         (advanceFrom (if s.qIdx = 0 then extract_int_0_2 a else s.nChildren) s.qIdx).2) := by
  simp [step, h6, hd]

lemma runValidated_cons (V : ℕ → Bool → Str → ValidationDecision)
    (s : SurveyState) (tr : List TraceEntry) (a : Str) (rest : List Str) :
    runValidated V s tr (a :: rest) =
      runValidated V (step s a (V s.qIdx (s.followupUsed s.qIdx) a)).1
        (tr ++ (step s a (V s.qIdx (s.followupUsed s.qIdx) a)).2) rest := rfl

/-- Invariant induction: with a contract-compliant validator (never
`NEED_FOLLOWUP` when the flag is already set), every question index receives
at most one `NEED_FOLLOWUP` over the whole run. -/
lemma runValidated_nf_bound (V : ℕ → Bool → Str → ValidationDecision)
    (hV : ∀ i a, (V i true a).status ≠ .NEED_FOLLOWUP)
    (answers : List Str) :
    ∀ (s : SurveyState) (tr : List TraceEntry),
      (∀ k, nfCount tr k ≤ 1) →
      (1 ≤ nfCount tr s.qIdx → s.followupUsed s.qIdx = true) →
      (∀ k, s.qIdx < k → nfCount tr k = 0) →
      ∀ i, nfCount (runValidated V s tr answers).2 i ≤ 1 := by
  induction answers with
  | nil =>
      intro s tr hA hB hC i
      exact hA i
  | cons a rest ih =>
      intro s tr hA hB hC i
      rw [runValidated_cons]
      by_cases h6 : 6 ≤ s.qIdx
      · rw [step_out s a _ h6, List.append_nil]
        exact ih s tr hA hB hC i
      · cases hst : (V s.qIdx (s.followupUsed s.qIdx) a).status with
        | NEED_FOLLOWUP =>
            have hfu : s.followupUsed s.qIdx = false := by
              cases hb : s.followupUsed s.qIdx
              · rfl
              · exfalso
                rw [hb] at hst
                exact hV s.qIdx a hst
            have hcnt0 : nfCount tr s.qIdx = 0 := by
              by_cases hc : 1 ≤ nfCount tr s.qIdx
              · have := hB hc
                rw [hfu] at this
                exact absurd this (by simp)
              · omega
            rw [step_eq_nf s a _ h6 hst]
            dsimp only
            apply ih
            · intro k
              rw [nfCount_append, nfCount_cons_verdict]
              by_cases hk : s.qIdx = k
              · subst hk
                rw [hcnt0]
                simp [nfCount]
              · rw [if_neg (fun hand => hk hand.1)]
                simpa [nfCount] using hA k
            · dsimp only
              intro _
              simp [setFlag]
            · dsimp only
              intro k hk
              rw [nfCount_append, nfCount_cons_verdict,
                  if_neg (fun hand => Nat.ne_of_lt hk hand.1), hC k hk]
              simp [nfCount]
        | GIVE_UP =>
            rw [step_eq_gu s a _ h6 hst]
            dsimp only
            have hq1 : s.qIdx + 1 ≤ (advanceFrom s.nChildren s.qIdx).1 :=
              skipChainAux_ge s.nChildren 6 (s.qIdx + 1)
            have hes : ∀ k,
                nfCount (TraceEntry.verdict s.qIdx .GIVE_UP ::
                  .recordedNA s.qIdx :: (advanceFrom s.nChildren s.qIdx).2) k = 0 := by
              intro k
              rw [nfCount_cons_verdict, nfCount_cons_na, advanceFrom,
                  nfCount_skipChain]
              simp
            apply ih
            · intro k
              rw [nfCount_append, hes k]
              simpa using hA k
            · dsimp only
              intro h1
              rw [nfCount_append, hes, hC _ (by omega)] at h1
              exact absurd h1 (by omega)
            · dsimp only
              intro k hk
              rw [nfCount_append, hes, hC k (by omega)]
        | OK =>
            rw [step_eq_ok s a _ h6 hst]
            dsimp only
            have hq1 : s.qIdx + 1 ≤
                (advanceFrom (if s.qIdx = 0 then extract_int_0_2 a else s.nChildren)
                  s.qIdx).1 :=
              skipChainAux_ge _ 6 (s.qIdx + 1)
            have hes : ∀ k,
                nfCount (TraceEntry.verdict s.qIdx .OK ::
                  .answered s.qIdx ::
                  (advanceFrom (if s.qIdx = 0 then extract_int_0_2 a else s.nChildren)
                    s.qIdx).2) k = 0 := by
              intro k
              rw [nfCount_cons_verdict, nfCount_cons_answered, advanceFrom,
                  nfCount_skipChain]
              simp
            apply ih
            · intro k
              rw [nfCount_append, hes k]
              simpa using hA k
            · dsimp only
              intro h1
              rw [nfCount_append, hes, hC _ (by omega)] at h1
              exact absurd h1 (by omega)
            · dsimp only
              intro k hk
              rw [nfCount_append, hes, hC k (by omega)]

/-- C3 amended: the machine passes the per-index retry flag to the validator
and sets it on the first `NEED_FOLLOWUP`; under the validator's documented
contract (`NEED_FOLLOWUP` only when `followup_used` is false) every question
index receives at most one `NEED_FOLLOWUP` verdict in the whole run — but
the bound is not enforced against a non-compliant validator (see the
counterexample). -/
theorem c3_amended_retry_budget (answers : List Str)
    (V : ℕ → Bool → Str → ValidationDecision)
    (hV : ∀ i a, (V i true a).status ≠ .NEED_FOLLOWUP) :
    ∀ i, nfCount (runSurveyValidated V answers).2 i ≤ 1 := by
  intro i
  exact runValidated_nf_bound V hV answers initialState []
    (fun _ => Nat.zero_le 1)
    (fun h => (Nat.not_succ_le_zero 0 h).elim)
    (fun _ _ => rfl) i

/-- A validator obeying the documented contract: once the follow-up budget is
used it gives up instead of asking again. -/
def complyValidator : ℕ → Bool → Str → ValidationDecision :=
  fun _ fu _ =>
    match fu with
    | true => ⟨.GIVE_UP, none, none⟩
    | false => ⟨.NEED_FOLLOWUP, some (str "Please answer Yes or No."), none⟩

/-- C3 amended, witness: a compliant validator run on three answers. -/
theorem c3_amended_retry_budget_witness :
    (∀ i a, (complyValidator i true a).status ≠ VStatus.NEED_FOLLOWUP) ∧
    nfCount (runSurveyValidated complyValidator
      [str "maybe", str "maybe", str "2"]).2 0 ≤ 1 := by
  constructor
  · intro i a
    simp [complyValidator]
  · exact c3_amended_retry_budget [str "maybe", str "maybe", str "2"]
      complyValidator (fun i a => by simp [complyValidator]) 0

end RiskProfiler
